import Mathlib

/-!
# bw-ssh-agent: a shallow embedding of `main.go`

The program is a small SSH agent daemon whose key comes from a Bitwarden vault.
Every function of `main.go` is embedded as a Lean function.  Calls that leave
the program (the `bw` command line, `encoding/json`, `net`, `os`, `go-daemon`,
`x/crypto/ssh`) are answered by a `World`, a record of the answers those calls
give; every such call is also written to a trace of `Event`s, in program order.

Go features and how they are embedded:

* a Go `error` value is its message (`Err`), `nil` is `none`;
* a pointer that can be `nil` is an `Option`;
* `log.Fatal…` (which ends the process with status 1) and a run-time panic are
  the outcomes `Outcome.fatal` and `Outcome.panic`;
* a method with a pointer receiver returns the receiver's new value.
-/

namespace BwSshAgent

/-- A Go `error`, kept as its message. -/
abbrev Err := String

/-- A byte slice. -/
abbrev Bytes := List Nat

/-- The anonymous struct of `Item.Fields`. -/
structure Field where
  Name : String
  Value : String
deriving DecidableEq, Repr

/-- The anonymous struct of `Item.Attachments`. -/
structure Attachment where
  Id : String
  FileName : String
  Url : String
deriving DecidableEq, Repr

/-- Go `type Item struct`. -/
structure Item where
  Object : String
  Id : String
  Fields : List Field
  Attachments : List Attachment
deriving DecidableEq, Repr

/-- Go `type Folder struct`. -/
structure Folder where
  Object : String
  Id : String
  Name : String
deriving DecidableEq, Repr

/-- A private key as returned by `ssh.ParseRawPrivateKey`; only its identity matters here. -/
structure PrivateKey where
  ident : Nat
deriving DecidableEq, Repr

/-- The state behind the `agent.Agent` made by `agent.NewKeyring()`: the keys held and
the lock flag of the agent protocol. -/
structure Keyring where
  keys : List PrivateKey
  locked : Bool
deriving DecidableEq, Repr

/-- Go `agent.NewKeyring()`: a keyring holding no key. -/
def NewKeyring : Keyring := { keys := [], locked := false }

/-- A `net.Listener`: the descriptor it owns and whether `Close` was called on it. -/
structure Listener where
  fd : Nat
  closed : Bool
deriving DecidableEq, Repr

/-- Go `type Server struct`.  `listener` is `none` while the Go field is `nil`. -/
structure Server where
  listener : Option Listener
  keyring : Keyring
  session : String
  folderId : String
  socket : String
deriving DecidableEq, Repr

/-- An `*os.Process` as returned by `go-daemon`. -/
structure Process where
  Pid : Int
deriving DecidableEq, Repr

/-- How a call ends: it returns, the process is ended by `log.Fatal…`, or it panics. -/
inductive Outcome (α : Type) where
  | ret (a : α)
  | fatal (msg : String)
  | panic (msg : String)
deriving DecidableEq, Repr

/-- The two signals `shutdown` subscribes to: `os.Interrupt` and `syscall.SIGTERM`. -/
inductive Signal where
  | interrupt
  | sigterm
deriving DecidableEq, Repr

/-- What the program does to the outside, in program order. -/
inductive Event where
  /-- The call `exec.Command(args[0], args[1:]...).Output()`. -/
  | exec (args : List String)
  /-- The call `net.Listen("unix", path)`. -/
  | listen (path : String)
  /-- The call `os.Chmod(path, mode)`. -/
  | chmod (path : String) (mode : Nat)
  /-- The call `listener.Close()` on the listener owning `fd`. -/
  | closeListener (fd : Nat)
  /-- The call `listener.Accept()` returned the connection `c`. -/
  | accepted (c : Nat)
  /-- The call `listener.Accept()` returned the error `e`. -/
  | acceptFailed (e : Err)
  /-- The call `agent.ServeAgent(keyring, c)` is entered. -/
  | serveBegin (c : Nat)
  /-- The call `agent.ServeAgent(keyring, c)` has returned. -/
  | serveEnd (c : Nat)
  /-- The call `conn.Close()`. -/
  | connClose (c : Nat)
  /-- The call `keyring.Add(...)`. -/
  | keyringAdd (k : PrivateKey)
  /-- A line written by the `log` package (standard error). -/
  | log (msg : String)
  /-- Text written to standard output. -/
  | stdout (text : String)
  /-- The call `cntxt.Search()`. -/
  | search
  /-- The call `cntxt.Reborn()`. -/
  | reborn
  /-- The call `daemon.SendCommands(p)`. -/
  | sendCommands (p : Option Process)
  /-- The call `cntxt.Release()`. -/
  | release
  /-- The call `daemon.ServeSignals()`. -/
  | serveSignals
  /-- The `go` statement of `shutdown`, which starts the signal handler. -/
  | goShutdown
  /-- The statement `go server.Start()`. -/
  | goStart
  /-- A signal taken from the channel `c` of `shutdown`. -/
  | recv (s : Signal)
  /-- The send on the channel `close`, the last statement of the signal handler, completed. -/
  | sendDone
deriving DecidableEq, Repr

/-- The answers of everything outside `main.go`. -/
structure World where
  /-- Go `os.Getenv`. -/
  getenv : String → String
  /-- Go `os.TempDir()`. -/
  tempDir : String
  /-- Go `filepath.Join` of two elements. -/
  filepathJoin : String → String → String
  /-- Go `exec.Command(...).Output()`: the standard output of the command, or an error. -/
  exec : List String → Except Err Bytes
  /-- Go `json.Unmarshal` into a `[]*Folder`; a JSON `null` element is `none`. -/
  unmarshalFolders : Bytes → Except Err (List (Option Folder))
  /-- Go `json.Unmarshal` into a `[]*Item`; a JSON `null` element is `none`. -/
  unmarshalItems : Bytes → Except Err (List (Option Item))
  /-- Go `ssh.ParseRawPrivateKey`. -/
  parseRawPrivateKey : Bytes → Except Err PrivateKey
  /-- Go `keyring.Add`: the keyring after the call and the error returned. -/
  keyringAdd : Keyring → PrivateKey → Keyring × Option Err
  /-- Go `agent.ServeAgent` on connection `c`: the keyring after the exchange and the error returned. -/
  serveAgent : Keyring → Nat → Keyring × Option Err
  /-- Go `net.Listen("unix", path)`: the descriptor of the new listener, or an error. -/
  listen : String → Except Err Nat
  /-- Go `os.Chmod`. -/
  chmod : String → Nat → Option Err
  /-- The error returned by `listener.Close()`. -/
  closeListener : Nat → Option Err
  /-- Go `cntxt.Search()`. -/
  search : Option Process × Option Err
  /-- Go `cntxt.Reborn()`. -/
  reborn : Option Process × Option Err
  /-- Go `daemon.ServeSignals()`. -/
  serveSignals : Option Err
  /-- Go `daemon.SendCommands(p)`: the message of the panic it raises, `none` when it returns. -/
  sendCommands : Option Process → Option String

/-- A run of a function: the events it caused and how it ended. -/
structure Run (α : Type) where
  trace : List Event
  out : Outcome α

/-- The arguments of the folder search of `NewServer`. -/
def searchFoldersArgs (session : String) : List String :=
  ["bw", "list", "folders", "--search", "ssh-agent", "--session", session]

/-- The arguments of the item listing of `AddKey`. -/
def listItemsArgs (folderId session : String) : List String :=
  ["bw", "list", "items", "--folderid", folderId, "--session", session]

/-- The arguments of the attachment fetch of `AddKey`. -/
def getAttachmentArgs (itemId attachmentId session : String) : List String :=
  ["bw", "get", "attachment", "--itemid", itemId, attachmentId, "--raw", "--session", session]

/-- Go `func NewServer(socket string) *Server`. -/
def NewServer (w : World) (socket : String) : Run Server :=
  let session := w.getenv "BW_SESSION"
  if session = "" then
    { trace := [], out := .fatal "error: BW_SESSION is empty\n" }
  else
    match w.exec (searchFoldersArgs session) with
    | .error e =>
      { trace := [.exec (searchFoldersArgs session)], out := .fatal ("error: " ++ e ++ "\n") }
    | .ok searchFoldersOutput =>
      match w.unmarshalFolders searchFoldersOutput with
      | .error e =>
        { trace := [.exec (searchFoldersArgs session)], out := .fatal ("error: " ++ e ++ "\n") }
      | .ok folders =>
        if folders.length ≠ 1 then
          { trace := [.exec (searchFoldersArgs session)]
            out := .fatal ("error: " ++ toString folders.length
                            ++ " folders with the name " ++ "ssh-agent" ++ " found") }
        else
          match folders with
          | [] =>
            { trace := [.exec (searchFoldersArgs session)]
              out := .panic "runtime error: index out of range [0] with length 0" }
          | none :: _ =>
            { trace := [.exec (searchFoldersArgs session)]
              out := .panic "runtime error: invalid memory address or nil pointer dereference" }
          | some f :: _ =>
            { trace := [.exec (searchFoldersArgs session)]
              out := .ret { listener := none
                            keyring := NewKeyring
                            session := session
                            folderId := f.Id
                            socket := socket } }

/-- Go `func (s *Server) Close() error`: the server afterwards and the error returned.
Calling a method of the `nil` interface value panics. -/
def Server.Close (w : World) (s : Server) : Run (Server × Option Err) :=
  match s.listener with
  | none => { trace := [], out := .panic "runtime error: invalid memory address or nil pointer dereference" }
  | some l =>
    { trace := [.closeListener l.fd]
      out := .ret ({ s with listener := some { l with closed := true } }, w.closeListener l.fd) }

/-- Go `func (s *Server) Open()`.  The Go method returns nothing; the value returned here is
the receiver after the call. -/
def Server.Open (w : World) (s : Server) : Run Server :=
  match w.listen s.socket with
  | .error e =>
    { trace := [.listen s.socket, .log ("error: " ++ e ++ "\n")], out := .ret s }
  | .ok fd =>
    let s1 : Server := { s with listener := some { fd := fd, closed := false } }
    match w.chmod s.socket 0o700 with
    | some e =>
      let c := Server.Close w s1
      { trace := [.listen s.socket, .chmod s.socket 0o700, .log ("error: " ++ e ++ "\n")] ++ c.trace
        out := match c.out with
          | .ret (s2, _) => .ret s2
          | .fatal m => .fatal m
          | .panic m => .panic m }
    | none =>
      { trace := [.listen s.socket, .chmod s.socket 0o700], out := .ret s1 }

/-- Go `func (s *Server) AddKey() error`: the server afterwards and the error returned. -/
def Server.AddKey (w : World) (s : Server) : Run (Server × Option Err) :=
  let a1 := listItemsArgs s.folderId s.session
  match w.exec a1 with
  | .error e => { trace := [.exec a1], out := .ret (s, some e) }
  | .ok getItems =>
    match w.unmarshalItems getItems with
    | .error e => { trace := [.exec a1], out := .ret (s, some e) }
    | .ok items =>
      match items with
      | [] => { trace := [.exec a1], out := .panic "runtime error: index out of range [0] with length 0" }
      | none :: _ =>
        { trace := [.exec a1], out := .panic "runtime error: invalid memory address or nil pointer dereference" }
      | some item :: _ =>
        match item.Attachments with
        | [] => { trace := [.exec a1], out := .panic "runtime error: index out of range [0] with length 0" }
        | att :: _ =>
          let a2 := getAttachmentArgs item.Id att.Id s.session
          match w.exec a2 with
          | .error e => { trace := [.exec a1, .exec a2], out := .ret (s, some e) }
          | .ok getPrivateKey =>
            match w.parseRawPrivateKey getPrivateKey with
            | .error e => { trace := [.exec a1, .exec a2], out := .ret (s, some e) }
            | .ok privateKey =>
              let r := w.keyringAdd s.keyring privateKey
              { trace := [.exec a1, .exec a2, .keyringAdd privateKey]
                out := .ret ({ s with keyring := r.1 }, r.2) }

/-- Go `func (s *Server) Process(conn net.Conn)`: the events and the server afterwards.
The deferred `conn.Close()` runs last. -/
def Server.Process (w : World) (s : Server) (conn : Nat) : List Event × Server :=
  let r := w.serveAgent s.keyring conn
  ([.serveBegin conn, .serveEnd conn]
      ++ (match r.2 with
          | some e => [.log ("error: " ++ e ++ "\n")]
          | none => [])
      ++ [.connClose conn],
   { s with keyring := r.1 })

/-- What one call of `listener.Accept()` returns. -/
inductive AcceptResult where
  | conn (c : Nat)
  | err (e : Err)
deriving DecidableEq, Repr

/-- How a goroutine that waits for input ends: it has returned, it is still waiting because
the input given is used up, it is blocked for good in a send on a channel that nobody
receives from, or it has panicked. -/
inductive Ending where
  | returned
  | waiting
  | blocked
  | panicked (msg : String)
deriving DecidableEq, Repr

/-- A run of `Start`: its events, the server afterwards, how it ended, and the `Accept`
results it has not asked for. -/
structure StartRun where
  trace : List Event
  server : Server
  ending : Ending
  rest : List AcceptResult

/-- The `for` loop of `Start`, given what the successive calls of `Accept` return. -/
def acceptLoop (w : World) : Server → List AcceptResult → StartRun
  | s, [] => { trace := [], server := s, ending := .waiting, rest := [] }
  | s, .err e :: rest =>
    { trace := [.acceptFailed e], server := s, ending := .returned, rest := rest }
  | s, .conn c :: rest =>
    let p := Server.Process w s c
    let r := acceptLoop w p.2 rest
    { trace := .accepted c :: p.1 ++ r.trace, server := r.server, ending := r.ending, rest := r.rest }

/-- Go `func (s *Server) Start()`.  Calling `Accept` on the `nil` listener panics. -/
def Server.Start (w : World) (s : Server) (accepts : List AcceptResult) : StartRun :=
  match s.listener with
  | none =>
    { trace := [], server := s
      ending := .panicked "runtime error: invalid memory address or nil pointer dereference", rest := accepts }
  | some _ => acceptLoop w s accepts

/-- A run of the `for` loop of the signal handler: its events and, once the loop is left,
the signals not taken from the channel (`none` while the loop still waits). -/
structure LoopRun where
  trace : List Event
  left : Option (List Signal)

/-- The `for` loop inside the goroutine of `shutdown`, started with the counter `interrupt`,
given the signals that arrive on the channel `c`. -/
def shutdownLoop : Nat → List Signal → LoopRun
  | _, [] => { trace := [], left := none }
  | interrupt, .interrupt :: rest =>
    if interrupt = 0 then
      let r := shutdownLoop (interrupt + 1) rest
      { trace := .recv .interrupt :: .stdout "Interrupt...\n" :: r.trace, left := r.left }
    else
      { trace := [.recv .interrupt], left := some rest }
  | _, .sigterm :: rest => { trace := [.recv .sigterm], left := some rest }

/-- A run of the signal handler: its events, the server afterwards and how it ended. -/
structure HandlerRun where
  trace : List Event
  server : Server
  ending : Ending

/-- The goroutine started by `func shutdown(server *Server, close chan struct)`: the loop,
then `server.Close()`, then the send on `close`. The channel is unbuffered, so the send
completes only when some goroutine receives from it; `hasReceiver` says whether one does.
In `main` nothing ever receives from `close`, so there `hasReceiver` is `false` and the
handler stays blocked in the send. -/
def shutdown (w : World) (server : Server) (hasReceiver : Bool) (sigs : List Signal) :
    HandlerRun :=
  let l := shutdownLoop 0 sigs
  match l.left with
  | none => { trace := l.trace, server := server, ending := .waiting }
  | some _ =>
    let c := Server.Close w server
    match c.out with
    | .ret (s2, some e) =>
      { trace := l.trace ++ c.trace ++ [.log ("error: " ++ e ++ "\n")]
          ++ (if hasReceiver then [.sendDone] else [])
        server := s2, ending := if hasReceiver then .returned else .blocked }
    | .ret (s2, none) =>
      { trace := l.trace ++ c.trace ++ (if hasReceiver then [.sendDone] else [])
        server := s2, ending := if hasReceiver then .returned else .blocked }
    | .fatal m => { trace := l.trace ++ c.trace, server := server, ending := .panicked m }
    | .panic m => { trace := l.trace ++ c.trace, server := server, ending := .panicked m }

/-- Go `strconv.Itoa`. -/
def Itoa (i : Int) : String := toString i

/-- The two `fmt.Printf` calls of `main` when a running instance was found. -/
def printFound (socket : String) (pid : Int) : List String :=
  ["SSH_AUTH_SOCK=" ++ socket ++ ";export SSH_AUTH_SOCK;\n",
   "SSH_AGENT_PID=" ++ Itoa pid ++ ";export SSH_AGENT_PID;\n"]

/-- The two `fmt.Printf` calls of `main` when a new instance was created by `Reborn`. -/
def printReborn (socket : String) (pid : Int) : List String :=
  ["SSH_AUTH_SOCK=" ++ socket ++ ";export SSH_AUTH_SOCK;\n",
   "SSH_AGENT_PID=" ++ Itoa pid ++ ";export BW_SSH_AGENT_PID;\n"]

/-- The rest of `main` in the detached child, from `defer cntxt.Release()` on.
`log.Fatal…` ends the process at once; a panic of `main` itself runs the deferred `Release`
first. `go server.Start()` runs `Start` in a goroutine of its own: when `Start` panics
there (the listener is `nil`), the panic ends the whole process, without the deferred
`Release`; how far `main` got in `daemon.ServeSignals()` by then is left to the
scheduler, so the trace of that run ends at the `go` statement. Otherwise `Start` waits
in `Accept` or returns, and `main` goes on to `daemon.ServeSignals()`. -/
def serverMain (w : World) (socket : String) : Run Unit :=
  let n := NewServer w socket
  match n.out with
  | .fatal m => { trace := n.trace, out := .fatal m }
  | .panic m => { trace := n.trace ++ [.release], out := .panic m }
  | .ret server =>
    let o := Server.Open w server
    match o.out with
    | .fatal m => { trace := n.trace ++ o.trace, out := .fatal m }
    | .panic m => { trace := n.trace ++ o.trace ++ [.release], out := .panic m }
    | .ret s1 =>
      let a := Server.AddKey w s1
      match a.out with
      | .fatal m => { trace := n.trace ++ o.trace ++ [.goShutdown] ++ a.trace, out := .fatal m }
      | .panic m =>
        { trace := n.trace ++ o.trace ++ [.goShutdown] ++ a.trace ++ [.release], out := .panic m }
      | .ret (_, some e) =>
        { trace := n.trace ++ o.trace ++ [.goShutdown] ++ a.trace, out := .fatal (e ++ "\n") }
      | .ret (s2, none) =>
        match (Server.Start w s2 []).ending with
        | .panicked m =>
          { trace := n.trace ++ o.trace ++ [.goShutdown] ++ a.trace ++ [.goStart]
            out := .panic m }
        | _ =>
          { trace := n.trace ++ o.trace ++ [.goShutdown] ++ a.trace ++ [.goStart, .serveSignals]
              ++ (match w.serveSignals with
                  | some e => [.log (e ++ "\n")]
                  | none => [])
              ++ [.release]
            out := .ret () }

/-- Go `func main()`.  `kill` is the flag `-k`; it is the only flag given to `daemon.AddFlag`,
so `len(daemon.ActiveFlags()) > 0` holds exactly when it is set. -/
def main (w : World) (kill : Bool) : Run Unit :=
  let socket := w.filepathJoin w.tempDir "bw-ssh-agent.sock"
  if kill then
    match w.search with
    | (_, some e) => { trace := [.search], out := .fatal ("Unable to signal the daemon: " ++ e) }
    | (d, none) =>
      { trace := [.search, .sendCommands d]
        out := match w.sendCommands d with
          | some m => .panic m
          | none => .ret () }
  else
    match w.search with
    | (some _, some e) => { trace := [.search], out := .fatal (e ++ "\n") }
    | (some d, none) =>
      { trace := .search :: (printFound socket d.Pid).map .stdout, out := .ret () }
    | (none, _) =>
      match w.reborn with
      | (_, some e) => { trace := [.search, .reborn], out := .fatal (e ++ "\n") }
      | (some d, none) =>
        { trace := [.search, .reborn] ++ (printReborn socket d.Pid).map .stdout, out := .ret () }
      | (none, none) =>
        let r := serverMain w socket
        { trace := [.search, .reborn] ++ r.trace, out := r.out }

/-! ## Specification-side definitions and sample inputs -/

/-- Position of the first terminate signal of a sequence, if there is one. -/
def firstTerminate : List Signal → Option Nat
  | [] => none
  | .sigterm :: _ => some 0
  | .interrupt :: rest => (firstTerminate rest).map (· + 1)

/-- Position of the first interrupt signal of a sequence, if there is one. -/
def firstInterrupt : List Signal → Option Nat
  | [] => none
  | .interrupt :: _ => some 0
  | .sigterm :: rest => (firstInterrupt rest).map (· + 1)

/-- Position of the second interrupt signal of a sequence, if there is one. -/
def secondInterrupt : List Signal → Option Nat
  | [] => none
  | .interrupt :: rest => (firstInterrupt rest).map (· + 1)
  | .sigterm :: rest => (secondInterrupt rest).map (· + 1)

/-- The earlier of two optional positions. -/
def earlier : Option Nat → Option Nat → Option Nat
  | some a, some b => some (min a b)
  | some a, none => some a
  | none, some b => some b
  | none, none => none

/-- Position of the signal at which the listener is to be closed: the first terminate signal
or the second interrupt signal, whichever comes first. -/
def closePoint (sigs : List Signal) : Option Nat :=
  earlier (firstTerminate sigs) (secondInterrupt sigs)

/-- The signals a trace records as received, in order. -/
def received : List Event → List Signal
  | [] => []
  | .recv s :: tr => s :: received tr
  | _ :: tr => received tr

/-- The connections a trace records as served, in order. -/
def served : List Event → List Nat
  | [] => []
  | .serveBegin c :: tr => c :: served tr
  | _ :: tr => served tr

/-- Whether an event is one of the four steps taken for a connection. -/
def isConnStep : Event → Bool
  | .accepted _ => true
  | .serveBegin _ => true
  | .serveEnd _ => true
  | .connClose _ => true
  | _ => false

/-- Whether an event is a line of the log. -/
def isLog : Event → Bool
  | .log _ => true
  | _ => false

/-- The connections accepted before the first `Accept` error. -/
def acceptedBeforeError : List AcceptResult → List Nat
  | [] => []
  | .err _ :: _ => []
  | .conn c :: rest => c :: acceptedBeforeError rest

/-- The shape of a trace that serves the connections `cs` one after the other and stops at
the `Accept` error `e`: each connection is accepted, served, its failure (if any) logged,
and closed, before the next one is accepted; the `Accept` error comes last, with no log. -/
def ServedThenStopped : List Nat → Err → List Event → Prop
  | [], e, tr => tr = [.acceptFailed e]
  | c :: cs, e, tr =>
    ∃ tail, ServedThenStopped cs e tail ∧
      (tr = [.accepted c, .serveBegin c, .serveEnd c, .connClose c] ++ tail ∨
       ∃ m, tr = [.accepted c, .serveBegin c, .serveEnd c, .log m, .connClose c] ++ tail)

/-- Whether the server holds a listener that `Close` was not called on. -/
def Server.isOpen (s : Server) : Bool :=
  match s.listener with
  | some l => !l.closed
  | none => false

/-- A `keyring.Add` after the keyring of `x/crypto/ssh/agent`: a locked keyring refuses the
key; otherwise a key of the same identity is replaced, a new one is appended. -/
def sampleKeyringAdd (k : Keyring) (key : PrivateKey) : Keyring × Option Err :=
  if k.locked then (k, some "agent: locked")
  else if key ∈ k.keys then (k, none)
  else ({ k with keys := k.keys ++ [key] }, none)

/-- A sample item with one attachment. -/
def sampleItem : Item :=
  { Object := "item", Id := "i1", Fields := []
    Attachments := [{ Id := "a1", FileName := "id_ed25519", Url := "https://vault/a1" }] }

/-- A sample world: the session is `tok`, the vault has one folder `f1` holding `sampleItem`,
every system call succeeds, every client ends its connection (so `ServeAgent` returns the
read error), no instance runs and `Reborn` answers as in the detached child. -/
def sampleWorld : World :=
  { getenv := fun k => if k = "BW_SESSION" then "tok" else ""
    tempDir := "/tmp"
    filepathJoin := fun a b => a ++ "/" ++ b
    exec := fun args =>
      if args = searchFoldersArgs "tok" then .ok [1]
      else if args = listItemsArgs "f1" "tok" then .ok [2]
      else if args = getAttachmentArgs "i1" "a1" "tok" then .ok [3]
      else .error "exit status 1"
    unmarshalFolders := fun b =>
      if b = [1] then .ok [some { Object := "folder", Id := "f1", Name := "ssh-agent" }]
      else .error "unexpected end of JSON input"
    unmarshalItems := fun b =>
      if b = [2] then .ok [some sampleItem]
      else if b = [4] then .ok []
      else if b = [5] then .ok [some { sampleItem with Attachments := [] }]
      else .error "unexpected end of JSON input"
    parseRawPrivateKey := fun b =>
      if b = [3] then .ok { ident := 7 } else .error "ssh: no key found"
    keyringAdd := sampleKeyringAdd
    serveAgent := fun k c =>
      if c = 1 then (k, some "read unix: connection reset by peer") else (k, some "EOF")
    listen := fun _ => .ok 3
    chmod := fun _ _ => none
    closeListener := fun _ => none
    search := (none, none)
    reborn := (none, none)
    serveSignals := none
    sendCommands := fun p =>
      match p with
      | none => some "runtime error: invalid memory address or nil pointer dereference"
      | some _ => none }

/-- A server as `NewServer` makes it in `sampleWorld`. -/
def sampleServer : Server :=
  { listener := none, keyring := NewKeyring, session := "tok", folderId := "f1"
    socket := "/tmp/bw-ssh-agent.sock" }

/-- The sample server holding an open listener. -/
def sampleOpenServer : Server :=
  { sampleServer with listener := some { fd := 3, closed := false } }

/-- The sample world with a vault whose item listing is empty. -/
def emptyListingWorld : World :=
  { sampleWorld with exec := fun _ => .ok [4] }

/-- The sample world with a vault whose first item has no attachment. -/
def noAttachmentWorld : World :=
  { sampleWorld with exec := fun _ => .ok [5] }

/-- The sample server with a locked keyring holding one key. -/
def lockedServer : Server :=
  { sampleServer with keyring := { keys := [{ ident := 1 }], locked := true } }

/-- The sample world with the socket path already bound by another listener. -/
def boundWorld : World :=
  { sampleWorld with listen := fun _ => .error "bind: address already in use" }

/-- The sample world in which the permissions of the socket cannot be changed. -/
def chmodFailsWorld : World :=
  { sampleWorld with chmod := fun _ _ => some "chmod: operation not permitted" }

/-- The sample world with a stale pid file: `Search` finds no process and reports no error. -/
def staleMarkerWorld : World :=
  { sampleWorld with search := (none, none) }

/-- The sample world in the parent process: `Reborn` returns the new instance, pid 42. -/
def parentWorld : World :=
  { sampleWorld with reborn := (some { Pid := 42 }, none) }

/-- The sample world with an instance of pid 42 already running. -/
def runningWorld : World :=
  { sampleWorld with search := (some { Pid := 42 }, none) }

/-- The sample world with a vault holding two folders that match the search. -/
def twoFoldersWorld : World :=
  { sampleWorld with
    unmarshalFolders := fun _ =>
      .ok [some { Object := "folder", Id := "f1", Name := "ssh-agent" },
           some { Object := "folder", Id := "f2", Name := "ssh-agent-old" }] }

/-- Whether an event is a call of `listener.Close()`. -/
def isClose : Event → Bool
  | .closeListener _ => true
  | _ => false

/-- Whether an event is the notice printed by the signal handler. -/
def isNotice : Event → Bool
  | .stdout text => text = "Interrupt...\n"
  | _ => false

/-! ## Theorems -/

/-- C1, evaluated on the code: when the item listing is empty, or its first item has no
attachments, `AddKey` does not return an error; indexing `items[0]`, respectively
`Attachments[0]`, panics. -/
theorem AddKey_panics_without_item_or_attachment (w : World) (s : Server)
    (getItems : Bytes) (items : List (Option Item))
    (h1 : w.exec (listItemsArgs s.folderId s.session) = .ok getItems)
    (h2 : w.unmarshalItems getItems = .ok items)
    (h3 : items = [] ∨ ∃ it rest, items = some it :: rest ∧ it.Attachments = []) :
    (Server.AddKey w s).out = .panic "runtime error: index out of range [0] with length 0" ∧
      ∀ r, (Server.AddKey w s).out ≠ .ret r := by
  rcases h3 with h3 | ⟨it, rest, h3, h4⟩
  · subst h3
    simp [Server.AddKey, h1, h2]
  · subst h3
    simp [Server.AddKey, h1, h2, h4]

/-- The panic of C1 on a vault whose listing is empty. -/
theorem AddKey_panics_without_item_or_attachment_witness :
    (Server.AddKey emptyListingWorld sampleServer).out
        = .panic "runtime error: index out of range [0] with length 0" ∧
      ∀ r, (Server.AddKey emptyListingWorld sampleServer).out ≠ .ret r :=
  AddKey_panics_without_item_or_attachment emptyListingWorld sampleServer [4] [] rfl rfl
    (Or.inl rfl)

/-- C7: whenever `AddKey` returns an error, the keyring of the server is the keyring it had
before the call. `keyring.Add` belongs to the agent library; it is assumed to leave the
keyring alone when it returns an error. -/
theorem AddKey_error_keeps_keyring (w : World) (s s' : Server) (e : Err)
    (hAdd : ∀ k key, (w.keyringAdd k key).2 ≠ none → (w.keyringAdd k key).1 = k)
    (h : (Server.AddKey w s).out = .ret (s', some e)) :
    s'.keyring = s.keyring ∧ s'.keyring.keys = s.keyring.keys := by
  have key : s'.keyring = s.keyring := by
    unfold Server.AddKey at h
    simp only at h
    split at h
    · simp at h; rw [← h.1]
    · split at h
      · simp at h; rw [← h.1]
      · split at h
        · simp at h
        · simp at h
        · split at h
          · simp at h
          · split at h
            · simp at h; rw [← h.1]
            · split at h
              · simp at h; rw [← h.1]
              · rename_i privateKey _
                simp at h
                obtain ⟨h1, h2⟩ := h
                have := hAdd s.keyring privateKey (by rw [h2]; simp)
                rw [← h1]
                exact this
  exact ⟨key, by rw [key]⟩

/-- C7 on a locked keyring, which refuses the key fetched from the vault. -/
theorem AddKey_error_keeps_keyring_witness :
    (Server.AddKey sampleWorld lockedServer).out = .ret (lockedServer, some "agent: locked") ∧
      lockedServer.keyring = lockedServer.keyring ∧
      lockedServer.keyring.keys = lockedServer.keyring.keys :=
  ⟨rfl, AddKey_error_keeps_keyring sampleWorld lockedServer lockedServer "agent: locked"
    (by
      intro k key h
      show (sampleKeyringAdd k key).1 = k
      have h' : (sampleKeyringAdd k key).2 ≠ none := h
      unfold sampleKeyringAdd at h' ⊢
      split_ifs at h' ⊢ with h1 h2
      · rfl
      · rfl
      · simp at h')
    rfl⟩

/-- C2 as stated fails: when `Open` fails, `main` still goes on to fetch the key with
`AddKey` and to start `Start`. With the socket path already bound, `Open` only logs and
hands back the unchanged server; `main` adds the key and starts `Start`, which panics on
the missing listener. With a `Chmod` that fails, `main` likewise adds the key and starts
`Start`. -/
theorem main_goes_on_after_failed_Open :
    boundWorld.listen "/tmp/bw-ssh-agent.sock" = .error "bind: address already in use" ∧
      (Server.Open boundWorld sampleServer).out = .ret sampleServer ∧
      (main boundWorld false).trace =
        [.search, .reborn, .exec (searchFoldersArgs "tok"),
         .listen "/tmp/bw-ssh-agent.sock", .log "error: bind: address already in use\n",
         .goShutdown,
         .exec (listItemsArgs "f1" "tok"), .exec (getAttachmentArgs "i1" "a1" "tok"),
         .keyringAdd { ident := 7 },
         .goStart] ∧
      (main boundWorld false).out
        = .panic "runtime error: invalid memory address or nil pointer dereference" ∧
      chmodFailsWorld.chmod "/tmp/bw-ssh-agent.sock" 0o700
        = some "chmod: operation not permitted" ∧
      (main chmodFailsWorld false).trace =
        [.search, .reborn, .exec (searchFoldersArgs "tok"),
         .listen "/tmp/bw-ssh-agent.sock", .chmod "/tmp/bw-ssh-agent.sock" 0o700,
         .log "error: chmod: operation not permitted\n", .closeListener 3,
         .goShutdown,
         .exec (listItemsArgs "f1" "tok"), .exec (getAttachmentArgs "i1" "a1" "tok"),
         .keyringAdd { ident := 7 },
         .goStart, .serveSignals, .release] ∧
      ¬ (Event.exec (listItemsArgs "f1" "tok") ∉ (main boundWorld false).trace ∧
          Event.goStart ∉ (main boundWorld false).trace) ∧
      ¬ (Event.exec (listItemsArgs "f1" "tok") ∉ (main chmodFailsWorld false).trace ∧
          Event.goStart ∉ (main chmodFailsWorld false).trace) := by
  refine ⟨rfl, by decide, by decide, by decide, rfl, by decide, ?_, ?_⟩
  · decide
  · decide

/-- C2, amended: when `Open` fails on a server that holds no listener yet, `Open` writes the
failure to the log and returns, with nothing but the server to show for it. After a
failed bind, `Open` has done nothing besides the `Listen` and the log line, and the
server still has no listener. After a failed `Chmod`, `Open` has logged the failure and
then closed the listener it created, and the server holds that listener, closed. -/
theorem Open_failure_is_logged (w : World) (s : Server) (h0 : s.listener = none) :
    (∀ e, w.listen s.socket = .error e →
        (Server.Open w s).trace = [.listen s.socket, .log ("error: " ++ e ++ "\n")] ∧
        (Server.Open w s).out = .ret { s with listener := none }) ∧
      (∀ fd e, w.listen s.socket = .ok fd → w.chmod s.socket 0o700 = some e →
        (Server.Open w s).trace =
          [.listen s.socket, .chmod s.socket 0o700, .log ("error: " ++ e ++ "\n"),
           .closeListener fd] ∧
        (Server.Open w s).out
          = .ret { s with listener := some { fd := fd, closed := true } }) := by
  refine ⟨?_, ?_⟩
  · intro e h
    have hs : ({ s with listener := none } : Server) = s := by
      cases s
      simp only [Server.mk.injEq, and_true, true_and] at h0 ⊢
      exact h0.symm
    rw [hs]
    simp [Server.Open, h]
  · intro fd e h1 h2
    simp [Server.Open, h1, h2, Server.Close]

/-- The amended C2 on a socket path that is already bound and on a `Chmod` that fails. -/
theorem Open_failure_is_logged_witness :
    sampleServer.listener = none ∧
      boundWorld.listen sampleServer.socket = .error "bind: address already in use" ∧
      ((Server.Open boundWorld sampleServer).trace =
          [.listen sampleServer.socket,
           .log ("error: " ++ "bind: address already in use" ++ "\n")] ∧
        (Server.Open boundWorld sampleServer).out
          = .ret { sampleServer with listener := none }) ∧
      chmodFailsWorld.listen sampleServer.socket = .ok 3 ∧
      chmodFailsWorld.chmod sampleServer.socket 0o700 = some "chmod: operation not permitted" ∧
      ((Server.Open chmodFailsWorld sampleServer).trace =
          [.listen sampleServer.socket, .chmod sampleServer.socket 0o700,
           .log ("error: " ++ "chmod: operation not permitted" ++ "\n"), .closeListener 3] ∧
        (Server.Open chmodFailsWorld sampleServer).out
          = .ret { sampleServer with listener := some { fd := 3, closed := true } }) :=
  ⟨rfl, rfl,
    (Open_failure_is_logged boundWorld sampleServer rfl).1 "bind: address already in use" rfl,
    rfl, rfl,
    (Open_failure_is_logged chmodFailsWorld sampleServer rfl).2 3
      "chmod: operation not permitted" rfl rfl⟩

/-- C9: when `Open` has bound the socket and restricting its permissions to mode 0700 fails,
`Open` logs the failure, closes the listener it has just created and leaves it closed in
the server; when both steps succeed the server holds the open listener and the one
`Chmod` made on the socket path had mode 0700. -/
theorem Open_after_bind (w : World) (s : Server) (fd : Nat)
    (hl : w.listen s.socket = .ok fd) :
    (∀ e, w.chmod s.socket 0o700 = some e →
        (Server.Open w s).trace =
          [.listen s.socket, .chmod s.socket 0o700, .log ("error: " ++ e ++ "\n"),
           .closeListener fd] ∧
        (Server.Open w s).out = .ret { s with listener := some { fd := fd, closed := true } } ∧
        ({ s with listener := some { fd := fd, closed := true } } : Server).isOpen = false) ∧
      (w.chmod s.socket 0o700 = none →
        (Server.Open w s).trace = [.listen s.socket, .chmod s.socket 0o700] ∧
        (Server.Open w s).out = .ret { s with listener := some { fd := fd, closed := false } } ∧
        ({ s with listener := some { fd := fd, closed := false } } : Server).isOpen = true) := by
  refine ⟨?_, ?_⟩
  · intro e he
    simp [Server.Open, hl, he, Server.Close, Server.isOpen]
  · intro he
    simp [Server.Open, hl, he, Server.isOpen]

/-- C9 in the world where `Chmod` fails. -/
theorem Open_after_bind_witness :
    chmodFailsWorld.listen sampleServer.socket = .ok 3 ∧
      (Server.Open chmodFailsWorld sampleServer).trace =
        [.listen "/tmp/bw-ssh-agent.sock", .chmod "/tmp/bw-ssh-agent.sock" 0o700,
         .log "error: chmod: operation not permitted\n", .closeListener 3] ∧
      (Server.Open chmodFailsWorld sampleServer).out
        = .ret { sampleServer with listener := some { fd := 3, closed := true } } :=
  ⟨rfl,
    ((Open_after_bind chmodFailsWorld sampleServer 3 rfl).1
      "chmod: operation not permitted" rfl).1,
    ((Open_after_bind chmodFailsWorld sampleServer 3 rfl).1
      "chmod: operation not permitted" rfl).2.1⟩

/-- C4, evaluated on the code: in kill mode, when `Search` returns no process and no error,
`main` does not fail with `log.Fatalf`; it hands the missing process to
`daemon.SendCommands`. -/
theorem main_kill_without_instance_sends (w : World) (h : w.search = (none, none)) :
    (main w true).trace = [.search, .sendCommands none] ∧
      ∀ m, (main w true).out ≠ .fatal m := by
  unfold main
  simp only [if_true]
  rw [h]
  refine ⟨rfl, ?_⟩
  intro m
  simp only
  cases w.sendCommands none <;> simp

/-- C4 on a stale pid file. -/
theorem main_kill_without_instance_sends_witness :
    staleMarkerWorld.search = (none, none) ∧
      (main staleMarkerWorld true).trace = [.search, .sendCommands none] ∧
      ∀ m, (main staleMarkerWorld true).out ≠ .fatal m :=
  ⟨rfl, main_kill_without_instance_sends staleMarkerWorld rfl⟩

/-- C5, evaluated on the code: the path that created a new instance prints a second line
that assigns `SSH_AGENT_PID` but exports `BW_SSH_AGENT_PID`, so for no socket and pid do
the two success paths print the same text. -/
theorem reborn_path_exports_other_variable (socket : String) (pid : Int) :
    printReborn socket pid ≠ printFound socket pid ∧
      (main parentWorld false).trace =
        [.search, .reborn,
         .stdout "SSH_AUTH_SOCK=/tmp/bw-ssh-agent.sock;export SSH_AUTH_SOCK;\n",
         .stdout "SSH_AGENT_PID=42;export BW_SSH_AGENT_PID;\n"] ∧
      (main runningWorld false).trace =
        [.search,
         .stdout "SSH_AUTH_SOCK=/tmp/bw-ssh-agent.sock;export SSH_AUTH_SOCK;\n",
         .stdout "SSH_AGENT_PID=42;export SSH_AGENT_PID;\n"] := by
  refine ⟨?_, by decide, by decide⟩
  intro h
  unfold printReborn printFound at h
  simp only [List.cons.injEq, and_true, true_and] at h
  have h2 := congrArg String.data h
  simp only [String.data_append, List.append_cancel_left_eq] at h2
  revert h2
  decide

/-- C8: with a non-empty session, `NewServer` returns a server exactly when the folder
search yields exactly one folder; that server has the folder's id, the given socket and
session, an empty keyring and no listener. When the search yields zero or several
folders, construction ends the process with `log.Fatalf`, and the startup has then done
nothing but the folder search: no item listing was fetched and no socket was created. -/
theorem NewServer_needs_exactly_one_folder (w : World) (socket : String)
    (hs : w.getenv "BW_SESSION" ≠ "") :
    (∀ s, (NewServer w socket).out = .ret s ↔
        ∃ out f, w.exec (searchFoldersArgs (w.getenv "BW_SESSION")) = .ok out ∧
          w.unmarshalFolders out = .ok [some f] ∧
          s = { listener := none, keyring := { keys := [], locked := false }
                session := w.getenv "BW_SESSION", folderId := f.Id, socket := socket }) ∧
      (∀ out folders, w.exec (searchFoldersArgs (w.getenv "BW_SESSION")) = .ok out →
        w.unmarshalFolders out = .ok folders → folders.length ≠ 1 →
        (NewServer w socket).out
          = .fatal ("error: " ++ toString folders.length
              ++ " folders with the name " ++ "ssh-agent" ++ " found") ∧
        (serverMain w socket).trace = [.exec (searchFoldersArgs (w.getenv "BW_SESSION"))] ∧
        (serverMain w socket).out
          = .fatal ("error: " ++ toString folders.length
              ++ " folders with the name " ++ "ssh-agent" ++ " found") ∧
        (∀ path, Event.listen path ∉ (serverMain w socket).trace) ∧
        (∀ folderId session,
          Event.exec (listItemsArgs folderId session) ∉ (serverMain w socket).trace)) := by
  refine ⟨?_, ?_⟩
  · intro s
    unfold NewServer
    simp only [hs, if_false]
    cases hx : w.exec (searchFoldersArgs (w.getenv "BW_SESSION")) with
    | error e => simp
    | ok out =>
      cases hu : w.unmarshalFolders out with
      | error e => simp [hu]
      | ok folders =>
        rcases folders with _ | ⟨a, _ | ⟨b, t⟩⟩
        · simp [hu]
        · cases a with
          | none => simp [hu]
          | some f =>
            simp [hu, NewKeyring]
            exact eq_comm
        · simp [hu]
  · intro out folders hx hu hlen
    have hN : (NewServer w socket) =
        { trace := [.exec (searchFoldersArgs (w.getenv "BW_SESSION"))]
          out := .fatal ("error: " ++ toString folders.length
              ++ " folders with the name " ++ "ssh-agent" ++ " found") } := by
      unfold NewServer
      simp only [hs, if_false, hx, hu, hlen, ne_eq, not_false_eq_true, if_true]
    have hM : serverMain w socket =
        { trace := [.exec (searchFoldersArgs (w.getenv "BW_SESSION"))]
          out := .fatal ("error: " ++ toString folders.length
              ++ " folders with the name " ++ "ssh-agent" ++ " found") } := by
      unfold serverMain
      simp only [hN]
    rw [hM, hN]
    refine ⟨rfl, rfl, rfl, ?_, ?_⟩
    · intro path
      simp
    · intro folderId session
      simp [listItemsArgs, searchFoldersArgs]

/-- C8 in the sample world, whose vault has exactly one matching folder. -/
theorem NewServer_needs_exactly_one_folder_witness :
    sampleWorld.getenv "BW_SESSION" ≠ "" ∧
      (NewServer sampleWorld "/tmp/bw-ssh-agent.sock").out = .ret sampleServer :=
  ⟨by decide,
    ((NewServer_needs_exactly_one_folder sampleWorld "/tmp/bw-ssh-agent.sock"
        (by decide)).1 sampleServer).2
      ⟨[1], { Object := "folder", Id := "f1", Name := "ssh-agent" }, rfl, rfl, rfl⟩⟩

/-- The close point of a sequence that starts with a terminate signal is its first signal. -/
theorem closePoint_sigterm (r : List Signal) : closePoint (.sigterm :: r) = some 0 := by
  unfold closePoint
  cases h : secondInterrupt (.sigterm :: r) <;> simp [firstTerminate, earlier]

/-- A single interrupt has no close point. -/
theorem closePoint_single_interrupt : closePoint [.interrupt] = none := by
  decide

/-- After a first interrupt the next signal, whichever it is, is the close point. -/
theorem closePoint_interrupt_then (x : Signal) (r : List Signal) :
    closePoint (.interrupt :: x :: r) = some 1 := by
  unfold closePoint
  cases x with
  | interrupt =>
    cases h : firstTerminate r <;> simp [firstTerminate, secondInterrupt, firstInterrupt, earlier, h]
  | sigterm =>
    cases h : firstInterrupt r <;> simp [firstTerminate, secondInterrupt, firstInterrupt, earlier, h]

/-- C6: for every sequence of interrupt and terminate signals, the signal handler leaves
its loop exactly after the signal at the close point (the first terminate or the second
interrupt, whichever comes first) and then closes the listener of the server; on no
shorter run of the sequence is the listener closed. A first interrupt only prints the
notice. The notice is printed at most once and the listener is closed at most once.
After the close the handler returns when its send on `close` is received, and stays
blocked in that send otherwise. -/
theorem shutdown_closes_at_closePoint (w : World) (s : Server) (l : Listener)
    (hasReceiver : Bool) (sigs : List Signal) (hl : s.listener = some l) :
    (shutdownLoop 0 sigs).left = (closePoint sigs).map (fun k => sigs.drop (k + 1)) ∧
      (closePoint sigs = none →
        (shutdown w s hasReceiver sigs).server = s ∧
        (shutdown w s hasReceiver sigs).ending = .waiting ∧
        (shutdown w s hasReceiver sigs).trace.countP isClose = 0) ∧
      (∀ k, closePoint sigs = some k →
        (shutdown w s hasReceiver sigs).server
          = { s with listener := some { l with closed := true } } ∧
        (shutdown w s hasReceiver sigs).ending
          = (if hasReceiver then .returned else .blocked) ∧
        (∃ pre post, (shutdown w s hasReceiver sigs).trace = pre ++ .closeListener l.fd :: post ∧
          received pre = sigs.take (k + 1) ∧ received post = [] ∧
          pre.countP isClose = 0) ∧
        ∀ j, j ≤ k →
          (shutdown w s hasReceiver (sigs.take j)).server = s ∧
          (shutdown w s hasReceiver (sigs.take j)).ending = .waiting ∧
          (shutdown w s hasReceiver (sigs.take j)).trace.countP isClose = 0) ∧
      ((shutdown w s hasReceiver [.interrupt]).trace
          = [.recv .interrupt, .stdout "Interrupt...\n"] ∧
        (shutdown w s hasReceiver [.interrupt]).server = s) ∧
      (shutdown w s hasReceiver sigs).trace.countP isNotice ≤ 1 ∧
      (shutdown w s hasReceiver sigs).trace.countP isClose ≤ 1 := by
  have hI : (shutdown w s hasReceiver [.interrupt]).trace
        = [.recv .interrupt, .stdout "Interrupt...\n"] ∧
      (shutdown w s hasReceiver [.interrupt]).server = s := by
    simp [shutdown, shutdownLoop]
  have h0 : shutdown w s hasReceiver [] = { trace := [], server := s, ending := .waiting } := by
    simp [shutdown, shutdownLoop]
  have h1 : shutdown w s hasReceiver [.interrupt] =
      { trace := [.recv .interrupt, .stdout "Interrupt...\n"], server := s
        ending := .waiting } := by
    simp [shutdown, shutdownLoop]
  have hsend : received (if hasReceiver then [Event.sendDone] else []) = [] := by
    cases hasReceiver <;> simp [received]
  match sigs with
  | [] =>
    refine ⟨by simp [shutdownLoop, closePoint, firstTerminate, secondInterrupt, earlier],
      ?_, ?_, hI, ?_, ?_⟩
    · intro _; simp [h0, isClose]
    · intro k hk; simp [closePoint, firstTerminate, secondInterrupt, earlier] at hk
    · simp [h0]
    · simp [h0]
  | .sigterm :: r =>
    rw [closePoint_sigterm]
    refine ⟨by simp [shutdownLoop], by simp, ?_, hI, ?_, ?_⟩
    · intro k hk
      have hk' : k = 0 := by simpa using hk.symm
      subst hk'
      refine ⟨?_, ?_, ?_, ?_⟩
      · cases hc : w.closeListener l.fd <;> simp [shutdown, shutdownLoop, Server.Close, hl, hc]
      · cases hc : w.closeListener l.fd <;> simp [shutdown, shutdownLoop, Server.Close, hl, hc]
      · cases hc : w.closeListener l.fd
        · exact ⟨[.recv .sigterm], if hasReceiver then [.sendDone] else [],
            by simp [shutdown, shutdownLoop, Server.Close, hl, hc],
            by simp [received], hsend, by simp [isClose]⟩
        · rename_i e
          exact ⟨[.recv .sigterm],
            .log ("error: " ++ e ++ "\n") :: (if hasReceiver then [.sendDone] else []),
            by simp [shutdown, shutdownLoop, Server.Close, hl, hc],
            by simp [received], by simp [received, hsend], by simp [isClose]⟩
      · intro j hj
        have hj' : j = 0 := by omega
        subst hj'
        simp [h0]
    · cases hasReceiver <;> cases hc : w.closeListener l.fd <;>
        simp [shutdown, shutdownLoop, Server.Close, hl, hc, isNotice]
    · cases hasReceiver <;> cases hc : w.closeListener l.fd <;>
        simp [shutdown, shutdownLoop, Server.Close, hl, hc, isClose]
  | [.interrupt] =>
    rw [closePoint_single_interrupt]
    refine ⟨by simp [shutdownLoop], ?_, by simp, hI, ?_, ?_⟩
    · intro _; simp [h1, isClose]
    · simp [h1, isNotice]
    · simp [h1, isClose]
  | .interrupt :: x :: r =>
    rw [closePoint_interrupt_then]
    have hloop : shutdownLoop 0 (.interrupt :: x :: r) =
        { trace := [.recv .interrupt, .stdout "Interrupt...\n", .recv x], left := some r } := by
      cases x <;> simp [shutdownLoop]
    refine ⟨by simp [hloop], by simp, ?_, hI, ?_, ?_⟩
    · intro k hk
      have hk' : k = 1 := by simpa using hk.symm
      subst hk'
      refine ⟨?_, ?_, ?_, ?_⟩
      · cases hc : w.closeListener l.fd <;> simp [shutdown, hloop, Server.Close, hl, hc]
      · cases hc : w.closeListener l.fd <;> simp [shutdown, hloop, Server.Close, hl, hc]
      · cases hc : w.closeListener l.fd
        · exact ⟨[.recv .interrupt, .stdout "Interrupt...\n", .recv x],
            if hasReceiver then [.sendDone] else [],
            by simp [shutdown, hloop, Server.Close, hl, hc],
            by simp [received], hsend, by simp [isClose]⟩
        · rename_i e
          exact ⟨[.recv .interrupt, .stdout "Interrupt...\n", .recv x],
            .log ("error: " ++ e ++ "\n") :: (if hasReceiver then [.sendDone] else []),
            by simp [shutdown, hloop, Server.Close, hl, hc],
            by simp [received], by simp [received, hsend], by simp [isClose]⟩
      · intro j hj
        have hj' : j = 0 ∨ j = 1 := by omega
        rcases hj' with hj' | hj'
        · subst hj'
          simp [h0]
        · subst hj'
          simp [h1, isClose]
    · cases hasReceiver <;> cases hc : w.closeListener l.fd <;>
        simp [shutdown, hloop, Server.Close, hl, hc, isNotice]
    · cases hasReceiver <;> cases hc : w.closeListener l.fd <;>
        simp [shutdown, hloop, Server.Close, hl, hc, isClose]

/-- C6 on an interrupt followed by a terminate signal and a further interrupt, with the
channel `close` of `main`, which has no receiver. -/
theorem shutdown_closes_at_closePoint_witness :
    sampleOpenServer.listener = some { fd := 3, closed := false } ∧
      (shutdownLoop 0 [.interrupt, .sigterm, .interrupt]).left
        = (closePoint [.interrupt, .sigterm, .interrupt]).map
            (fun k => [Signal.interrupt, .sigterm, .interrupt].drop (k + 1)) ∧
      (shutdown sampleWorld sampleOpenServer false
        [.interrupt, .sigterm, .interrupt]).trace.countP isClose ≤ 1 :=
  ⟨rfl,
    (shutdown_closes_at_closePoint sampleWorld sampleOpenServer { fd := 3, closed := false }
      false [.interrupt, .sigterm, .interrupt] rfl).1,
    (shutdown_closes_at_closePoint sampleWorld sampleOpenServer { fd := 3, closed := false }
      false [.interrupt, .sigterm, .interrupt] rfl).2.2.2.2.2⟩

/-- One turn of the accept loop on an accepted connection. -/
theorem acceptLoop_conn (w : World) (s : Server) (c : Nat) (rest : List AcceptResult) :
    acceptLoop w s (.conn c :: rest) =
      { trace := .accepted c :: (Server.Process w s c).1
          ++ (acceptLoop w (Server.Process w s c).2 rest).trace
        server := (acceptLoop w (Server.Process w s c).2 rest).server
        ending := (acceptLoop w (Server.Process w s c).2 rest).ending
        rest := (acceptLoop w (Server.Process w s c).2 rest).rest } := by
  simp [acceptLoop]

/-- With a listener set, `Start` is its accept loop. -/
theorem Start_eq_acceptLoop (w : World) (s : Server) (l : Listener)
    (accepts : List AcceptResult) (hl : s.listener = some l) :
    Server.Start w s accepts = acceptLoop w s accepts := by
  simp [Server.Start, hl]

/-- The connection steps of the accept loop come connection by connection, and the keyring
is handed from each connection to the next. -/
theorem acceptLoop_sequential (w : World) (accepts : List AcceptResult) :
    ∀ s : Server,
      (acceptLoop w s accepts).trace.filter isConnStep =
          (acceptedBeforeError accepts).flatMap
            (fun c => [.accepted c, .serveBegin c, .serveEnd c, .connClose c]) ∧
        (acceptLoop w s accepts).server.keyring =
          (acceptedBeforeError accepts).foldl (fun k c => (w.serveAgent k c).1) s.keyring := by
  induction accepts with
  | nil => intro s; simp [acceptLoop, acceptedBeforeError]
  | cons a rest ih =>
    intro s
    cases a with
    | err e => simp [acceptLoop, acceptedBeforeError, isConnStep]
    | conn c =>
      rw [acceptLoop_conn]
      have h := ih (Server.Process w s c).2
      simp only [acceptedBeforeError, List.flatMap_cons, List.foldl_cons]
      refine ⟨?_, ?_⟩
      · rw [← h.1]
        cases hr : (w.serveAgent s.keyring c).2 <;>
          simp [Server.Process, hr, isConnStep, List.filter_cons]
      · rw [h.2]
        simp [Server.Process]

/-- The accept loop on connections followed by an `Accept` error. -/
theorem acceptLoop_until_error (w : World) (e : Err) (rest : List AcceptResult)
    (cs : List Nat) :
    ∀ s : Server,
      (acceptLoop w s (cs.map .conn ++ .err e :: rest)).ending = .returned ∧
        (acceptLoop w s (cs.map .conn ++ .err e :: rest)).rest = rest ∧
        served (acceptLoop w s (cs.map .conn ++ .err e :: rest)).trace = cs ∧
        ServedThenStopped cs e (acceptLoop w s (cs.map .conn ++ .err e :: rest)).trace := by
  induction cs with
  | nil => intro s; simp [acceptLoop, served, ServedThenStopped]
  | cons c cs ih =>
    intro s
    simp only [List.map_cons, List.cons_append]
    rw [acceptLoop_conn]
    obtain ⟨h1, h2, h3, h4⟩ := ih (Server.Process w s c).2
    refine ⟨h1, h2, ?_, ?_⟩
    · simp only [Server.Process] at h3 ⊢
      cases hr : (w.serveAgent s.keyring c).2 <;> simp [served, h3]
    · refine ⟨_, h4, ?_⟩
      cases hr : (w.serveAgent s.keyring c).2
      · left
        simp [Server.Process, hr]
      · rename_i m
        right
        exact ⟨"error: " ++ m ++ "\n", by simp [Server.Process, hr]⟩

/-- C3 as stated fails: with two connections waiting, the thread of `Start` itself serves
connection 0 to the end and closes it before it accepts connection 1. -/
theorem Start_serves_inside_the_accept_loop :
    (Server.Start sampleWorld sampleOpenServer
        [.conn 0, .conn 1, .err "use of closed network connection"]).trace =
      [.accepted 0, .serveBegin 0, .serveEnd 0, .log "error: EOF\n", .connClose 0,
       .accepted 1, .serveBegin 1, .serveEnd 1,
       .log "error: read unix: connection reset by peer\n", .connClose 1,
       .acceptFailed "use of closed network connection"] ∧
      ¬ (List.indexOf (Event.accepted 1)
            (Server.Start sampleWorld sampleOpenServer
              [.conn 0, .conn 1, .err "use of closed network connection"]).trace
          < List.indexOf (Event.serveEnd 0)
            (Server.Start sampleWorld sampleOpenServer
              [.conn 0, .conn 1, .err "use of closed network connection"]).trace) := by
  refine ⟨by decide, ?_⟩
  decide

/-- C3, amended: `Start` serves each accepted connection inside the accept loop. Whatever
`Accept` returns, the connection steps of `Start` are, connection by connection in the
order of acceptance: accepted, serving begun, serving ended, closed; so connection n+1 is
accepted only after connection n was served and closed. The one keyring of the server is
handed from each connection to the next. -/
theorem Start_serves_one_connection_at_a_time (w : World) (s : Server) (l : Listener)
    (accepts : List AcceptResult) (hl : s.listener = some l) :
    (Server.Start w s accepts).trace.filter isConnStep =
        (acceptedBeforeError accepts).flatMap
          (fun c => [.accepted c, .serveBegin c, .serveEnd c, .connClose c]) ∧
      (Server.Start w s accepts).server.keyring =
        (acceptedBeforeError accepts).foldl (fun k c => (w.serveAgent k c).1) s.keyring := by
  rw [Start_eq_acceptLoop w s l accepts hl]
  exact acceptLoop_sequential w accepts s

/-- The amended C3 on two waiting connections. -/
theorem Start_serves_one_connection_at_a_time_witness :
    sampleOpenServer.listener = some { fd := 3, closed := false } ∧
      (Server.Start sampleWorld sampleOpenServer
          [.conn 0, .conn 1, .err "use of closed network connection"]).trace.filter isConnStep =
        (acceptedBeforeError [.conn 0, .conn 1, .err "use of closed network connection"]).flatMap
          (fun c => [.accepted c, .serveBegin c, .serveEnd c, .connClose c]) :=
  ⟨rfl,
    (Start_serves_one_connection_at_a_time sampleWorld sampleOpenServer
      { fd := 3, closed := false }
      [.conn 0, .conn 1, .err "use of closed network connection"] rfl).1⟩

/-- C10: given connections `cs` followed by an `Accept` error, `Start` serves exactly `cs`,
in order, and returns at the error without asking `Accept` again and without logging
the error: each connection is accepted, served, its failure (if any) logged, and closed
before the next one. When serving a connection fails, the failure is logged, the
connection is closed and the loop goes on with the next `Accept`. -/
theorem Start_stops_at_first_accept_error (w : World) (s : Server) (l : Listener)
    (cs : List Nat) (e : Err) (rest : List AcceptResult) (hl : s.listener = some l) :
    (Server.Start w s (cs.map .conn ++ .err e :: rest)).ending = .returned ∧
      (Server.Start w s (cs.map .conn ++ .err e :: rest)).rest = rest ∧
      served (Server.Start w s (cs.map .conn ++ .err e :: rest)).trace = cs ∧
      ServedThenStopped cs e (Server.Start w s (cs.map .conn ++ .err e :: rest)).trace ∧
      (∀ c k m tail, w.serveAgent s.keyring c = (k, some m) →
        (Server.Start w s (.conn c :: tail)).trace =
          [.accepted c, .serveBegin c, .serveEnd c, .log ("error: " ++ m ++ "\n"),
           .connClose c] ++ (Server.Start w { s with keyring := k } tail).trace) ∧
      (∀ c k tail, w.serveAgent s.keyring c = (k, none) →
        (Server.Start w s (.conn c :: tail)).trace =
          [.accepted c, .serveBegin c, .serveEnd c, .connClose c]
            ++ (Server.Start w { s with keyring := k } tail).trace) := by
  rw [Start_eq_acceptLoop w s l _ hl]
  obtain ⟨h1, h2, h3, h4⟩ := acceptLoop_until_error w e rest cs s
  refine ⟨h1, h2, h3, h4, ?_, ?_⟩
  · intro c k m tail h
    rw [Start_eq_acceptLoop w s l _ hl,
      Start_eq_acceptLoop w { s with keyring := k } l tail hl, acceptLoop_conn]
    simp [Server.Process, h]
  · intro c k tail h
    rw [Start_eq_acceptLoop w s l _ hl,
      Start_eq_acceptLoop w { s with keyring := k } l tail hl, acceptLoop_conn]
    simp [Server.Process, h]

/-- C10 on two connections, then a closed listener and a connection that comes too late. -/
theorem Start_stops_at_first_accept_error_witness :
    sampleOpenServer.listener = some { fd := 3, closed := false } ∧
      (Server.Start sampleWorld sampleOpenServer
        ([0, 1].map .conn ++ .err "use of closed network connection" :: [.conn 2])).ending
        = .returned ∧
      (Server.Start sampleWorld sampleOpenServer
        ([0, 1].map .conn ++ .err "use of closed network connection" :: [.conn 2])).rest
        = [.conn 2] ∧
      served (Server.Start sampleWorld sampleOpenServer
        ([0, 1].map .conn ++ .err "use of closed network connection" :: [.conn 2])).trace
        = [0, 1] :=
  ⟨rfl,
    (Start_stops_at_first_accept_error sampleWorld sampleOpenServer { fd := 3, closed := false }
      [0, 1] "use of closed network connection" [.conn 2] rfl).1,
    (Start_stops_at_first_accept_error sampleWorld sampleOpenServer { fd := 3, closed := false }
      [0, 1] "use of closed network connection" [.conn 2] rfl).2.1,
    (Start_stops_at_first_accept_error sampleWorld sampleOpenServer { fd := 3, closed := false }
      [0, 1] "use of closed network connection" [.conn 2] rfl).2.2.1⟩

end BwSshAgent
